import Mathlib

/-! Shallow embedding of the filtered-pagination REST API
(`src/routers/{users,items,companies,insiders,transactions}.py`).

Conventions of the embedding:
* SQL / Python float money values are modelled as `ℚ`, datetimes as `Int`
  ordinals (only their ordering and equality matter to the routers).
* A SQLAlchemy table, and the in-memory `fake_*_db` lists, are modelled as
  Lean lists in insertion order; `query.filter(...)` chains become sequential
  `List.filter` applications in the source order, `order_by(desc(...))` a
  sort by the corresponding descending relation, `offset(skip).limit(limit)`
  and Python slices `[skip : skip+limit]` become `drop skip` / `take limit`.
* Python truthiness in `if param:` guards is reproduced: `None` and the
  falsy values (`0`, `""`) contribute no condition.
* A raised `HTTPException` is an `Except.error` value; a handler that raises
  before writing leaves the store component of its result unchanged.
-/

namespace SimpleApi

inductive TransactionType where
  | buy
  | sell
  deriving DecidableEq, Repr, BEq

inductive Exchange where
  | tsx
  | tsxv
  | cse
  | neo
  deriving DecidableEq, Repr, BEq

/-- A row of the `companies` table (`models/database_models.py`). -/
structure Company where
  id : Nat
  name : String
  symbol : String
  sector : Option String
  market_cap : Option ℚ
  exchange : Exchange
  created_at : Int
  is_active : Bool
  deriving DecidableEq, Repr

/-- A row of the `insiders` table. -/
structure Insider where
  id : Nat
  name : String
  title : Option String
  company_id : Nat
  deriving DecidableEq, Repr

/-- A row of the `transactions` table. -/
structure Transaction where
  id : Nat
  insider_id : Nat
  company_id : Nat
  transaction_date : Int
  transaction_type : TransactionType
  shares : Nat
  price_per_share : ℚ
  total_value : ℚ
  filing_date : Int
  notes : Option String
  created_at : Int
  deriving DecidableEq, Repr

/-- An entry of `fake_users_db` (`routers/users.py`). -/
structure User where
  id : Nat
  name : String
  email : String
  age : Nat
  created_at : Int
  is_active : Bool
  deriving DecidableEq, Repr

/-- An entry of `fake_items_db` (`routers/items.py`). -/
structure Item where
  id : Nat
  title : String
  description : Option String
  price : ℚ
  category : String
  owner_id : Nat
  created_at : Int
  is_available : Bool
  deriving DecidableEq, Repr

/-- The relational store seen by the insider-trading routers. -/
structure DB where
  companies : List Company
  insiders : List Insider
  transactions : List Transaction
  deriving Repr

/-- The typed failures raised by the handlers (`utils/exceptions.py` and the
inline `HTTPException`s of the routers); each carries the offending
identifier or value exactly as the `detail` string does. -/
inductive ApiError where
  | insiderNotFound (id : Nat)
  | companyNotFound (id : Nat)
  | transactionNotFound (id : Nat)
  | userNotFound (id : Nat)
  | itemNotFound (id : Nat)
  | duplicateSymbol (symbol : String)
  | duplicateEmail (email : String)
  deriving DecidableEq, Repr

/-- Schema `PaginatedResponse` of `models/schemas.py`, generalised over
the item representation. -/
structure PaginatedResponse (α : Type) where
  items : List α
  total : Nat
  page : Nat
  per_page : Nat
  pages : Nat
  deriving DecidableEq, Repr

/-- Handler for `GET /users/` (`routers/users.py` `get_users`). -/
def get_users (fake_users_db : List User) (skip limit : Nat)
    (active_only : Bool) : PaginatedResponse User :=
  let filtered_users :=
    if active_only then fake_users_db.filter (fun u => u.is_active)
    else fake_users_db
  let total := filtered_users.length
  let users := (filtered_users.drop skip).take limit
  { items := users
    total := total
    page := skip / limit + 1
    per_page := limit
    pages := (total + limit - 1) / limit }

/-- Case-insensitive substring containment, the semantics of SQL
`ilike '%pat%'` on a non-null column value. -/
def icontains (pat s : String) : Bool :=
  decide (pat.toLower.toList <:+: s.toLower.toList)

/-- The optional query parameters of `GET /transactions/`. -/
structure TxFilter where
  transaction_type : Option TransactionType := none
  company_id : Option Nat := none
  insider_id : Option Nat := none
  start_date : Option Int := none
  end_date : Option Int := none
  min_value : Option ℚ := none
  max_value : Option ℚ := none
  deriving Repr

/-- The sequential `query.filter(...)` chain of `get_transactions`
(`routers/transactions.py` lines 26-47), one `if` per parameter in source
order; `if company_id:` / `if insider_id:` are Python-truthy, so a zero id
also skips the condition. -/
def applyTxFilters (f : TxFilter) (q0 : List Transaction) : List Transaction :=
  let q := q0
  let q := match f.transaction_type with
    | some ty => q.filter (fun t => t.transaction_type == ty)
    | none => q
  let q := match f.company_id with
    | some cid => if cid ≠ 0 then q.filter (fun t => t.company_id == cid) else q
    | none => q
  let q := match f.insider_id with
    | some iid => if iid ≠ 0 then q.filter (fun t => t.insider_id == iid) else q
    | none => q
  let q := match f.start_date with
    | some sd => q.filter (fun t => sd ≤ t.transaction_date)
    | none => q
  let q := match f.end_date with
    | some ed => q.filter (fun t => t.transaction_date ≤ ed)
    | none => q
  let q := match f.min_value with
    | some mv => q.filter (fun t => mv ≤ t.total_value)
    | none => q
  let q := match f.max_value with
    | some mv => q.filter (fun t => t.total_value ≤ mv)
    | none => q
  q

/-- The descending `transaction_date` order used by
`order_by(desc(DBTransaction.transaction_date))`. -/
def txDateGE (a b : Transaction) : Prop :=
  b.transaction_date ≤ a.transaction_date

instance : DecidableRel txDateGE := fun a b =>
  inferInstanceAs (Decidable (b.transaction_date ≤ a.transaction_date))

instance : IsTotal Transaction txDateGE :=
  ⟨fun a b => (le_total b.transaction_date a.transaction_date).imp id id⟩

instance : IsTrans Transaction txDateGE :=
  ⟨fun _ _ _ hab hbc => le_trans hbc hab⟩

/-- Model of `order_by(desc(transaction_date))`: sort into non-increasing
`transaction_date` order. -/
def sortByDateDesc (l : List Transaction) : List Transaction :=
  l.insertionSort txDateGE

/-- Handler for `GET /transactions/` (`routers/transactions.py` `get_transactions`):
filter, order descending by date, count, then offset/limit. -/
def get_transactions (db : List Transaction) (f : TxFilter)
    (skip limit : Nat) : PaginatedResponse Transaction :=
  let query := applyTxFilters f db
  let query := sortByDateDesc query
  let total := query.length
  let transactions := (query.drop skip).take limit
  { items := transactions
    total := total
    page := skip / limit + 1
    per_page := limit
    pages := (total + limit - 1) / limit }

/-- The optional query parameters of `GET /companies/`. -/
structure CompanyFilter where
  sector : Option String := none
  exchange : Option Exchange := none
  min_market_cap : Option ℚ := none
  max_market_cap : Option ℚ := none
  active_only : Bool := false
  deriving Repr

/-- The `query.filter(...)` chain of `get_companies`
(`routers/companies.py` lines 23-38); `if sector:` is Python-truthy so the
empty string contributes no condition, and `sector.ilike` on a SQL `NULL`
sector is not a match. -/
def applyCompanyFilters (f : CompanyFilter) (q0 : List Company) :
    List Company :=
  let q := q0
  let q := match f.sector with
    | some s =>
        if s ≠ "" then
          q.filter (fun c => match c.sector with
            | some cs => icontains s cs
            | none => false)
        else q
    | none => q
  let q := match f.exchange with
    | some e => q.filter (fun c => c.exchange == e)
    | none => q
  let q := match f.min_market_cap with
    | some mv =>
        q.filter (fun c => match c.market_cap with
          | some m => mv ≤ m
          | none => false)
    | none => q
  let q := match f.max_market_cap with
    | some mv =>
        q.filter (fun c => match c.market_cap with
          | some m => m ≤ mv
          | none => false)
    | none => q
  let q := if f.active_only then q.filter (fun c => c.is_active) else q
  q

/-- Handler for `GET /companies/` (`routers/companies.py` `get_companies`). -/
def get_companies (db : List Company) (f : CompanyFilter)
    (skip limit : Nat) : PaginatedResponse Company :=
  let query := applyCompanyFilters f db
  let total := query.length
  let companies := (query.drop skip).take limit
  { items := companies
    total := total
    page := skip / limit + 1
    per_page := limit
    pages := (total + limit - 1) / limit }

/-- The request body of `POST /transactions/` (`models/schemas.py`
`TransactionCreate`). -/
structure TransactionCreate where
  insider_id : Nat
  company_id : Nat
  transaction_date : Int
  transaction_type : TransactionType
  shares : Nat
  price_per_share : ℚ
  total_value : ℚ
  filing_date : Int
  notes : Option String := none
  deriving Repr

/-- Handler for `POST /transactions/` (`routers/transactions.py` `create_transaction`):
look up the insider, then the company; raising aborts before `db.add`, so
the store is returned unchanged alongside the error. `nextId` plays the
role of the autoincrement primary key and `now` of `created_at`. -/
def create_transaction (db : DB) (tc : TransactionCreate)
    (nextId : Nat) (now : Int) : DB × Except ApiError Transaction :=
  match db.insiders.find? (fun i => i.id == tc.insider_id) with
  | none => (db, .error (.insiderNotFound tc.insider_id))
  | some _ =>
    match db.companies.find? (fun c => c.id == tc.company_id) with
    | none => (db, .error (.companyNotFound tc.company_id))
    | some _ =>
      let db_transaction : Transaction :=
        { id := nextId
          insider_id := tc.insider_id
          company_id := tc.company_id
          transaction_date := tc.transaction_date
          transaction_type := tc.transaction_type
          shares := tc.shares
          price_per_share := tc.price_per_share
          total_value := tc.total_value
          filing_date := tc.filing_date
          notes := tc.notes
          created_at := now }
      ({ db with transactions := db.transactions ++ [db_transaction] },
       .ok db_transaction)

/-- The request body of `POST /companies/` (`models/schemas.py`
`CompanyCreate`). -/
structure CompanyCreate where
  name : String
  symbol : String
  sector : Option String := none
  market_cap : Option ℚ := none
  exchange : Exchange := .tsx
  deriving Repr

/-- Handler for `POST /companies/` (`routers/companies.py` `create_company`): the
symbol-uniqueness check runs before the insert; on conflict the handler
raises a 400 whose detail names the conflicting symbol and the store is
unchanged. -/
def create_company (companies : List Company) (cc : CompanyCreate)
    (nextId : Nat) (now : Int) : List Company × Except ApiError Company :=
  match companies.find? (fun c => c.symbol == cc.symbol) with
  | some _ => (companies, .error (.duplicateSymbol cc.symbol))
  | none =>
    let db_company : Company :=
      { id := nextId
        name := cc.name
        symbol := cc.symbol
        sector := cc.sector
        market_cap := cc.market_cap
        exchange := cc.exchange
        created_at := now
        is_active := true }
    (companies ++ [db_company], .ok db_company)

/-- Replace the first element satisfying `p` by its image under `g`,
modelling an in-place ORM mutation of the row returned by
`query.filter(...).first()`. -/
def modifyFirst (p : α → Bool) (g : α → α) : List α → List α
  | [] => []
  | x :: xs => if p x then g x :: xs else x :: modifyFirst p g xs

/-- Handler for `PATCH /companies/{id}/status` (`routers/companies.py`
`toggle_company_status`): negate `is_active` on the matching row. -/
def toggle_company_status (companies : List Company) (cid : Nat) :
    List Company × Except ApiError Company :=
  match companies.find? (fun c => c.id == cid) with
  | none => (companies, .error (.companyNotFound cid))
  | some c =>
    let c2 := { c with is_active := !c.is_active }
    (modifyFirst (fun x => x.id == cid) (fun x => { x with is_active := !x.is_active }) companies,
     .ok c2)

/-- The request body of `POST /users/` (`models/schemas.py` `UserCreate`). -/
structure UserCreate where
  name : String
  email : String
  age : Nat
  deriving Repr

/-- Handler for `POST /users/` (`routers/users.py` `create_user`): duplicate-email check,
then `id = max(existing ids, default=0) + 1` and append. `now` models
`datetime.now()`. -/
def create_user (fake_users_db : List User) (u : UserCreate) (now : Int) :
    List User × Except ApiError User :=
  match fake_users_db.find? (fun x => x.email == u.email) with
  | some _ => (fake_users_db, .error (.duplicateEmail u.email))
  | none =>
    let new_user : User :=
      { id := (fake_users_db.map (fun x => x.id)).foldl max 0 + 1
        name := u.name
        email := u.email
        age := u.age
        created_at := now
        is_active := true }
    (fake_users_db ++ [new_user], .ok new_user)

/-- Handler for `DELETE /users/{id}` (`routers/users.py` `delete_user`): pop the first
entry with the given id. -/
def delete_user (fake_users_db : List User) (uid : Nat) :
    List User × Except ApiError Nat :=
  match fake_users_db.find? (fun x => x.id == uid) with
  | none => (fake_users_db, .error (.userNotFound uid))
  | some _ =>
    (fake_users_db.eraseP (fun x => x.id == uid), .ok uid)

/-- The request body of `POST /items/` (`models/schemas.py` `ItemCreate`). -/
structure ItemCreate where
  title : String
  description : Option String := none
  price : ℚ
  category : String
  owner_id : Nat
  deriving Repr

/-- Handler for `POST /items/` (`routers/items.py` `create_item`): owner-existence check
against the known user ids, then `id = max(existing ids, default=0) + 1`
and append. -/
def create_item (fake_items_db : List Item) (known_user_ids : List Nat)
    (it : ItemCreate) (now : Int) : List Item × Except ApiError Item :=
  if it.owner_id ∈ known_user_ids then
    let new_item : Item :=
      { id := (fake_items_db.map (fun x => x.id)).foldl max 0 + 1
        title := it.title
        description := it.description
        price := it.price
        category := it.category
        owner_id := it.owner_id
        created_at := now
        is_available := true }
    (fake_items_db ++ [new_item], .ok new_item)
  else (fake_items_db, .error (.userNotFound it.owner_id))

/-- An updatable field of a partial-update body: `none` = not supplied
(pydantic "unset"), `some none` = supplied as an explicit JSON `null`,
`some (some v)` = supplied with value `v`. -/
def Patch (τ : Type) : Type := Option (Option τ)

instance : Inhabited (Patch τ) := ⟨none⟩

/-- The attribute value pydantic exposes for an update field: explicit
`null` and unset both read back as `None`. -/
def Patch.attr (f : Patch τ) : Option τ :=
  match f with
  | some (some v) => some v
  | _ => none

/-- The `for field, value in update_data.items(): if value is not None:
setattr(...)` loop, at one non-nullable field: only a supplied non-null
value changes it. -/
def Patch.apply (f : Patch τ) (old : τ) : τ :=
  match f with
  | some (some v) => v
  | _ => old

/-- The same loop at a nullable column: a supplied non-null value
overwrites, everything else (unset or explicit `null`) leaves the stored
option alone. -/
def Patch.applyOpt (f : Patch τ) (old : Option τ) : Option τ :=
  match f with
  | some (some v) => some v
  | _ => old

/-- The request body of `PUT /companies/{id}` (`models/schemas.py`
`CompanyUpdate`): every field optional. -/
structure CompanyUpdate where
  name : Patch String := none
  symbol : Patch String := none
  sector : Patch String := none
  market_cap : Patch ℚ := none
  exchange : Patch Exchange := none

/-- The field-assignment loop of `update_company` applied to one row. -/
def applyCompanyUpdate (u : CompanyUpdate) (c : Company) : Company :=
  { c with
    name := u.name.apply c.name
    symbol := u.symbol.apply c.symbol
    sector := u.sector.applyOpt c.sector
    market_cap := u.market_cap.applyOpt c.market_cap
    exchange := u.exchange.apply c.exchange }

/-- Handler for `PUT /companies/{id}` (`routers/companies.py` `update_company`): 404 on
a missing id; if a new, different symbol is supplied it must not collide
with an existing company; then the partial-update loop mutates the row in
place. -/
def update_company (companies : List Company) (cid : Nat)
    (u : CompanyUpdate) : List Company × Except ApiError Company :=
  match companies.find? (fun c => c.id == cid) with
  | none => (companies, .error (.companyNotFound cid))
  | some c =>
    match u.symbol.attr with
    | some s =>
      if s ≠ c.symbol then
        match companies.find? (fun x => x.symbol == s) with
        | some _ => (companies, .error (.duplicateSymbol s))
        | none =>
          (modifyFirst (fun x => x.id == cid) (applyCompanyUpdate u) companies,
           .ok (applyCompanyUpdate u c))
      else
        (modifyFirst (fun x => x.id == cid) (applyCompanyUpdate u) companies,
         .ok (applyCompanyUpdate u c))
    | none =>
      (modifyFirst (fun x => x.id == cid) (applyCompanyUpdate u) companies,
       .ok (applyCompanyUpdate u c))

/-- The request body of `PUT /transactions/{id}` (`models/schemas.py`
`TransactionUpdate`). -/
structure TransactionUpdate where
  transaction_date : Patch Int := none
  transaction_type : Patch TransactionType := none
  shares : Patch Nat := none
  price_per_share : Patch ℚ := none
  total_value : Patch ℚ := none
  filing_date : Patch Int := none
  notes : Patch String := none

/-- The field-assignment loop of `update_transaction` applied to one row. -/
def applyTransactionUpdate (u : TransactionUpdate) (t : Transaction) :
    Transaction :=
  { t with
    transaction_date := u.transaction_date.apply t.transaction_date
    transaction_type := u.transaction_type.apply t.transaction_type
    shares := u.shares.apply t.shares
    price_per_share := u.price_per_share.apply t.price_per_share
    total_value := u.total_value.apply t.total_value
    filing_date := u.filing_date.apply t.filing_date
    notes := u.notes.applyOpt t.notes }

/-- Handler for `PUT /transactions/{id}` (`routers/transactions.py`
`update_transaction`). -/
def update_transaction (transactions : List Transaction) (tid : Nat)
    (u : TransactionUpdate) : List Transaction × Except ApiError Transaction :=
  match transactions.find? (fun t => t.id == tid) with
  | none => (transactions, .error (.transactionNotFound tid))
  | some t =>
    (modifyFirst (fun x => x.id == tid) (applyTransactionUpdate u) transactions,
     .ok (applyTransactionUpdate u t))

/-- The response of `GET /transactions/stats/` (`models/schemas.py`
`TransactionStats`). -/
structure TransactionStats where
  total_transactions : Nat
  total_buy_value : ℚ
  total_sell_value : ℚ
  net_value : ℚ
  most_active_insider : Option String := none
  most_active_company : Option String := none
  deriving Repr

/-- Model of `max(counts, key=counts.get)` over keys in first-appearance order: the
first key attaining the maximum count. -/
def firstMaxBy (counts : Nat → Nat) : List Nat → Option Nat
  | [] => none
  | k :: ks => some (ks.foldl (fun best y => if counts best < counts y then y else best) k)

/-- The optional date-range filter chain at the top of
`get_transaction_stats` (`routers/transactions.py` lines 181-189). -/
def statsFiltered (txs : List Transaction)
    (start_date end_date : Option Int) : List Transaction :=
  let query := txs
  let query : List Transaction := match start_date with
    | some sd => query.filter (fun t => sd ≤ t.transaction_date)
    | none => query
  let query : List Transaction := match end_date with
    | some ed => query.filter (fun t => t.transaction_date ≤ ed)
    | none => query
  query

/-- Handler for `GET /transactions/stats/` (`routers/transactions.py`
`get_transaction_stats`): optional date-range filter, then count, per-type
value sums (the Python generator-expression `sum`s), net value, and the
most active insider/company resolved to a display name. -/
def get_transaction_stats (db : DB) (start_date end_date : Option Int) :
    TransactionStats :=
  let query := statsFiltered db.transactions start_date end_date
  let total_transactions := query.length
  let total_buy_value : ℚ := query.foldl
    (fun acc t => if t.transaction_type == .buy then acc + t.total_value else acc) 0
  let total_sell_value : ℚ := query.foldl
    (fun acc t => if t.transaction_type == .sell then acc + t.total_value else acc) 0
  let net_value := total_buy_value - total_sell_value
  let insiderCount := fun iid =>
    (query.filter (fun t => t.insider_id == iid)).length
  let companyCount := fun cid =>
    (query.filter (fun t => t.company_id == cid)).length
  let most_active_insider :=
    match firstMaxBy insiderCount ((query.map (fun t => t.insider_id)).eraseDups) with
    | some iid =>
      match db.insiders.find? (fun i => i.id == iid) with
      | some i => some i.name
      | none => none
    | none => none
  let most_active_company :=
    match firstMaxBy companyCount ((query.map (fun t => t.company_id)).eraseDups) with
    | some cid =>
      match db.companies.find? (fun c => c.id == cid) with
      | some c => some c.name
      | none => none
    | none => none
  { total_transactions := total_transactions
    total_buy_value := total_buy_value
    total_sell_value := total_sell_value
    net_value := net_value
    most_active_insider := most_active_insider
    most_active_company := most_active_company }

/-- Apply a list of independent filter conditions in order, as the chained
`query.filter(...)` calls do. -/
def applyConds (l : List α) (cs : List (α → Bool)) : List α :=
  cs.foldl (fun acc p => acc.filter p) l

/-- The conditions contributed by the supplied parameters of a
`TxFilter`, in source order; an absent (or Python-falsy) parameter
contributes none. -/
def txConds (f : TxFilter) : List (Transaction → Bool) :=
  (match f.transaction_type with
    | some ty => [fun t => t.transaction_type == ty]
    | none => [])
  ++ (match f.company_id with
    | some cid => if cid ≠ 0 then [fun t => t.company_id == cid] else []
    | none => [])
  ++ (match f.insider_id with
    | some iid => if iid ≠ 0 then [fun t => t.insider_id == iid] else []
    | none => [])
  ++ (match f.start_date with
    | some sd => [fun t => decide (sd ≤ t.transaction_date)]
    | none => [])
  ++ (match f.end_date with
    | some ed => [fun t => decide (t.transaction_date ≤ ed)]
    | none => [])
  ++ (match f.min_value with
    | some mv => [fun t => decide (mv ≤ t.total_value)]
    | none => [])
  ++ (match f.max_value with
    | some mv => [fun t => decide (t.total_value ≤ mv)]
    | none => [])

/-- The conditions contributed by the supplied parameters of a
`CompanyFilter`, in source order. -/
def companyConds (f : CompanyFilter) : List (Company → Bool) :=
  (match f.sector with
    | some s =>
        if s ≠ "" then
          [fun c => match c.sector with
            | some cs => icontains s cs
            | none => false]
        else []
    | none => [])
  ++ (match f.exchange with
    | some e => [fun c => c.exchange == e]
    | none => [])
  ++ (match f.min_market_cap with
    | some mv =>
        [fun c => match c.market_cap with
          | some m => decide (mv ≤ m)
          | none => false]
    | none => [])
  ++ (match f.max_market_cap with
    | some mv =>
        [fun c => match c.market_cap with
          | some m => decide (m ≤ mv)
          | none => false]
    | none => [])
  ++ (if f.active_only then [fun c => c.is_active] else [])

/-! Concrete sample data. `seedUsers` is the seed content of `fake_users_db` in `routers/users.py`
(with `datetime.now()` rendered as ordinal `0`); the remaining values are
concrete inputs used to instantiate the theorems below. -/

def seedUsers : List User :=
  [{ id := 1, name := "John Doe", email := "john@example.com", age := 30,
     created_at := 0, is_active := true },
   { id := 2, name := "Jane Smith", email := "jane@example.com", age := 25,
     created_at := 0, is_active := true },
   { id := 3, name := "Bob Johnson", email := "bob@example.com", age := 35,
     created_at := 0, is_active := false }]

/-- A sample transaction; date decreases with `n` so the collection is
already in descending date order. -/
def sampleTx (n : Nat) : Transaction :=
  { id := n + 1, insider_id := 1, company_id := 1,
    transaction_date := 100 - (n : Int), transaction_type := .buy,
    shares := 100, price_per_share := 10, total_value := 1000,
    filing_date := 100, notes := none, created_at := 0 }

/-- Twenty-five sample transactions, for the spec scenario of claim C3. -/
def sampleTxs : List Transaction :=
  (List.range 25).map sampleTx

def demoCompany : Company :=
  { id := 1, name := "Shopify Inc", symbol := "SHOP",
    sector := some "Technology", market_cap := some 1000000,
    exchange := .tsx, created_at := 0, is_active := true }

def demoInsider : Insider :=
  { id := 1, name := "Tobi Lutke", title := some "CEO", company_id := 1 }

/-- A store with one company and one insider and no transactions. -/
def demoDB : DB :=
  { companies := [demoCompany], insiders := [demoInsider], transactions := [] }

/-- The C5 scenario payload: a transaction referencing insider id 999. -/
def txCreate999 : TransactionCreate :=
  { insider_id := 999, company_id := 1, transaction_date := 10,
    transaction_type := .buy, shares := 10, price_per_share := 5,
    total_value := 50, filing_date := 11 }

/-- The C6 scenario payload: a company with symbol "SHOP". -/
def shopCreate : CompanyCreate :=
  { name := "Shopify Inc", symbol := "SHOP" }

/-- The C7 scenario data: three buys of value 100 and one sell of value
50. -/
def statsTxs : List Transaction :=
  [{ id := 1, insider_id := 1, company_id := 1, transaction_date := 1,
     transaction_type := .buy, shares := 10, price_per_share := 10,
     total_value := 100, filing_date := 1, notes := none, created_at := 0 },
   { id := 2, insider_id := 1, company_id := 1, transaction_date := 2,
     transaction_type := .buy, shares := 10, price_per_share := 10,
     total_value := 100, filing_date := 2, notes := none, created_at := 0 },
   { id := 3, insider_id := 2, company_id := 1, transaction_date := 3,
     transaction_type := .buy, shares := 10, price_per_share := 10,
     total_value := 100, filing_date := 3, notes := none, created_at := 0 },
   { id := 4, insider_id := 2, company_id := 2, transaction_date := 4,
     transaction_type := .sell, shares := 5, price_per_share := 10,
     total_value := 50, filing_date := 4, notes := none, created_at := 0 }]

def statsDB : DB :=
  { companies := [demoCompany], insiders := [demoInsider],
    transactions := statsTxs }

/-! Concrete insert/delete run used for claim C9: starting from an empty
user store, insert three users, delete the two highest ids, insert a
fourth. -/

def userA : UserCreate := { name := "Ann", email := "ann@example.com", age := 20 }

/-- The record `create_user` builds for `userA` on top of `seedUsers`. -/
def annUser : User :=
  { id := 4, name := "Ann", email := "ann@example.com", age := 20,
    created_at := 0, is_active := true }

def userB : UserCreate := { name := "Ben", email := "ben@example.com", age := 21 }

def userC : UserCreate := { name := "Cam", email := "cam@example.com", age := 22 }

def userD : UserCreate := { name := "Dee", email := "dee@example.com", age := 23 }

def c9db1 : List User := (create_user [] userA 0).1

def c9db2 : List User := (create_user c9db1 userB 0).1

def c9db3 : List User := (create_user c9db2 userC 0).1

def c9db4 : List User := (delete_user c9db3 3).1

def c9db5 : List User := (delete_user c9db4 2).1

/-- The id assigned by an insert attempt, if it succeeded. -/
def assignedId (r : List User × Except ApiError User) : Option Nat :=
  match r.2 with
  | .ok u => some u.id
  | .error _ => none

/-- A C10 sample update: `name` supplied with a value, `sector` supplied as
an explicit JSON `null`, everything else omitted. -/
def demoCompanyUpdate : CompanyUpdate :=
  { name := some (some "Shopify Canada"), sector := some none }

/-- A C10 sample update for a transaction: `shares` supplied, `notes`
supplied as an explicit JSON `null`. -/
def demoTransactionUpdate : TransactionUpdate :=
  { shares := some (some 42), notes := some none }

/-- A sample transaction filter with two supplied parameters. -/
def demoTxFilter : TxFilter :=
  { transaction_type := some .buy, min_value := some 500 }

/-- A sample stored transaction with non-null `notes`, for claim C10. -/
def sellTx : Transaction :=
  { id := 4, insider_id := 2, company_id := 2, transaction_date := 4,
    transaction_type := .sell, shares := 5, price_per_share := 10,
    total_value := 50, filing_date := 4, notes := some "planned sale",
    created_at := 0 }

/-! Helper lemmas. -/

/-- Integer `(t + l - 1) / l`, the `pages` formula of every router, is the
ceiling of the rational `t / l`. -/
theorem pred_div_eq_ceil (t l : Nat) (hl : 0 < l) :
    (t + l - 1) / l = ⌈(t : ℚ) / (l : ℚ)⌉₊ := by
  rcases Nat.eq_zero_or_pos t with ht | ht
  · subst ht
    simp [Nat.div_eq_of_lt (show l - 1 < l by omega)]
  · have hrw : t + l - 1 = (t - 1) + l := by omega
    rw [hrw, Nat.add_div_right _ hl]
    have hlq : (0 : ℚ) < (l : ℚ) := by exact_mod_cast hl
    symm
    rw [Nat.ceil_eq_iff (Nat.succ_ne_zero _)]
    refine ⟨?_, ?_⟩
    · have hnat : (t - 1) / l * l < t :=
        lt_of_le_of_lt (Nat.div_mul_le_self _ _) (by omega)
      rw [Nat.succ_sub_one, lt_div_iff₀ hlq]
      exact_mod_cast hnat
    · have e := Nat.div_add_mod (t - 1) l
      have hm : (t - 1) % l < l := Nat.mod_lt _ hl
      have hexp : ((t - 1) / l + 1) * l = l * ((t - 1) / l) + l := by ring
      have hnat : t ≤ ((t - 1) / l + 1) * l := by omega
      rw [div_le_iff₀ hlq]
      exact_mod_cast hnat

/-! Claim theorems. -/

/-- C1: for every list request with `skip ≥ 0` and `limit ≥ 1` (here over
the user and transaction collections), the paginated response satisfies:
`total` is the pre-paging match count, `page = skip / limit + 1`,
`per_page = limit`, `pages = ⌈total / limit⌉`, and when `total = 0` also
`pages = 0` and `items = []`. -/
theorem pagination_metadata_correct
    (users : List User) (txs : List Transaction) (f : TxFilter)
    (skip limit : Nat) (active_only : Bool) (hl : 1 ≤ limit) :
    ((get_users users skip limit active_only).total
        = (if active_only then users.filter (fun u => u.is_active)
           else users).length
      ∧ (get_users users skip limit active_only).page = skip / limit + 1
      ∧ (get_users users skip limit active_only).per_page = limit
      ∧ (get_users users skip limit active_only).pages
        = ⌈((get_users users skip limit active_only).total : ℚ) / (limit : ℚ)⌉₊
      ∧ ((get_users users skip limit active_only).total = 0 →
          (get_users users skip limit active_only).pages = 0
          ∧ (get_users users skip limit active_only).items = []))
    ∧ ((get_transactions txs f skip limit).total = (applyTxFilters f txs).length
      ∧ (get_transactions txs f skip limit).page = skip / limit + 1
      ∧ (get_transactions txs f skip limit).per_page = limit
      ∧ (get_transactions txs f skip limit).pages
        = ⌈((get_transactions txs f skip limit).total : ℚ) / (limit : ℚ)⌉₊
      ∧ ((get_transactions txs f skip limit).total = 0 →
          (get_transactions txs f skip limit).pages = 0
          ∧ (get_transactions txs f skip limit).items = [])) := by
  have hl0 : 0 < limit := hl
  constructor
  · refine ⟨rfl, rfl, rfl, ?_, ?_⟩
    · exact pred_div_eq_ceil _ _ hl0
    · intro h0
      simp only [get_users] at h0 ⊢
      rw [h0]
      refine ⟨by simp [Nat.div_eq_of_lt (show limit - 1 < limit by omega)], ?_⟩
      rw [List.eq_nil_of_length_eq_zero h0]
      simp
  · refine ⟨?_, rfl, rfl, ?_, ?_⟩
    · exact (List.perm_insertionSort txDateGE _).length_eq
    · exact pred_div_eq_ceil _ _ hl0
    · intro h0
      simp only [get_transactions] at h0 ⊢
      rw [h0]
      refine ⟨by simp [Nat.div_eq_of_lt (show limit - 1 < limit by omega)], ?_⟩
      rw [List.eq_nil_of_length_eq_zero h0]
      simp

/-- C1 witness: the theorem instantiated at the seed users and sample
transactions with `skip = 0`, `limit = 10`. -/
theorem pagination_metadata_correct_witness :
    1 ≤ 10
    ∧ (((get_users seedUsers 0 10 false).total
        = (if false then seedUsers.filter (fun u => u.is_active)
           else seedUsers).length
      ∧ (get_users seedUsers 0 10 false).page = 0 / 10 + 1
      ∧ (get_users seedUsers 0 10 false).per_page = 10
      ∧ (get_users seedUsers 0 10 false).pages
        = ⌈((get_users seedUsers 0 10 false).total : ℚ) / (10 : ℚ)⌉₊
      ∧ ((get_users seedUsers 0 10 false).total = 0 →
          (get_users seedUsers 0 10 false).pages = 0
          ∧ (get_users seedUsers 0 10 false).items = []))
    ∧ ((get_transactions sampleTxs {} 0 10).total
        = (applyTxFilters {} sampleTxs).length
      ∧ (get_transactions sampleTxs {} 0 10).page = 0 / 10 + 1
      ∧ (get_transactions sampleTxs {} 0 10).per_page = 10
      ∧ (get_transactions sampleTxs {} 0 10).pages
        = ⌈((get_transactions sampleTxs {} 0 10).total : ℚ) / (10 : ℚ)⌉₊
      ∧ ((get_transactions sampleTxs {} 0 10).total = 0 →
          (get_transactions sampleTxs {} 0 10).pages = 0
          ∧ (get_transactions sampleTxs {} 0 10).items = []))) :=
  ⟨by decide,
   pagination_metadata_correct seedUsers sampleTxs {} 0 10 false (by decide)⟩

/-- C2: the transaction listing sorts the filtered set by
`transaction_date` descending before `skip`/`limit` are applied, so the
returned page is non-increasing in `transaction_date` at every adjacent
pair. -/
theorem transactions_page_sorted_desc
    (txs : List Transaction) (f : TxFilter) (skip limit : Nat) :
    (get_transactions txs f skip limit).items
      = ((sortByDateDesc (applyTxFilters f txs)).drop skip).take limit
    ∧ List.Chain' txDateGE (get_transactions txs f skip limit).items := by
  refine ⟨rfl, ?_⟩
  have hsorted : (sortByDateDesc (applyTxFilters f txs)).Sorted txDateGE :=
    List.sorted_insertionSort txDateGE _
  have hdrop : (((sortByDateDesc (applyTxFilters f txs)).drop skip).take
      limit).Pairwise txDateGE := by
    refine List.Pairwise.sublist ?_ hsorted
    exact (List.take_sublist _ _).trans (List.drop_sublist _ _)
  exact hdrop.chain'

/-- C3: the returned page is exactly the records at positions
`[skip, skip + limit)` of the filtered sequence; when `skip ≥ total` the
page is empty (no error) and `total` still reports the full match count;
and with 25 matching transactions, `skip = 20`, `limit = 10`, the response
has 5 items, `total = 25`, `page = 3`, `pages = 3`. -/
theorem page_is_positions_slice
    (users : List User) (skip limit : Nat) (active_only : Bool) :
    ((∀ i, i < limit →
        ((get_users users skip limit active_only).items)[i]?
          = (if active_only then users.filter (fun u => u.is_active)
             else users)[skip + i]?)
      ∧ ((if active_only then users.filter (fun u => u.is_active)
          else users).length ≤ skip →
          (get_users users skip limit active_only).items = []
          ∧ (get_users users skip limit active_only).total
            = (if active_only then users.filter (fun u => u.is_active)
               else users).length))
    ∧ ((get_transactions sampleTxs {} 20 10).items.length = 5
      ∧ (get_transactions sampleTxs {} 20 10).total = 25
      ∧ (get_transactions sampleTxs {} 20 10).page = 3
      ∧ (get_transactions sampleTxs {} 20 10).pages = 3) := by
  refine ⟨⟨?_, ?_⟩, by decide⟩
  · intro i hi
    show (((if active_only then users.filter (fun u => u.is_active)
        else users).drop skip).take limit)[i]? = _
    rw [List.getElem?_take, if_pos hi, List.getElem?_drop]
  · intro hle
    refine ⟨?_, rfl⟩
    show (((if active_only then users.filter (fun u => u.is_active)
        else users).drop skip).take limit) = []
    rw [List.drop_eq_nil_of_le hle]
    simp

/-- C3 witness: at the seed users with `skip = 5 ≥ total = 3` the page is
empty and `total` is unchanged. -/
theorem page_is_positions_slice_witness :
    (if false then seedUsers.filter (fun u => u.is_active)
     else seedUsers).length ≤ 5
    ∧ ((get_users seedUsers 5 10 false).items = []
      ∧ (get_users seedUsers 5 10 false).total
        = (if false then seedUsers.filter (fun u => u.is_active)
           else seedUsers).length) :=
  ⟨by decide, (page_is_positions_slice seedUsers 5 10 false).1.2 (by decide)⟩

/-- One step of `applyConds`. -/
theorem applyConds_cons (l : List α) (c : α → Bool) (cs : List (α → Bool)) :
    applyConds l (c :: cs) = applyConds (l.filter c) cs := rfl

/-- Sequentially applied conditions select exactly the records satisfying
their conjunction. -/
theorem applyConds_eq_filter_all (cs : List (α → Bool)) (l : List α) :
    applyConds l cs = l.filter (fun a => cs.all (fun p => p a)) := by
  induction cs generalizing l with
  | nil => simp [applyConds]
  | cons c cs ih =>
    rw [applyConds_cons, ih, List.filter_filter]
    refine List.filter_congr ?_
    intro a _
    simp [Bool.and_comm]

/-- Two filter conditions commute. -/
theorem filter_swap (p q : α → Bool) (l : List α) :
    (l.filter p).filter q = (l.filter q).filter p := by
  rw [List.filter_filter, List.filter_filter]
  refine List.filter_congr ?_
  intro a _
  simp [Bool.and_comm]

/-- Applying the conditions in any order yields the same selected set. -/
theorem applyConds_perm {cs ds : List (α → Bool)} (h : List.Perm cs ds)
    (l : List α) : applyConds l cs = applyConds l ds := by
  induction h generalizing l with
  | nil => rfl
  | cons c _ ih =>
    rw [applyConds_cons, applyConds_cons]
    exact ih (l.filter c)
  | swap c d _ =>
    rw [applyConds_cons, applyConds_cons, applyConds_cons, applyConds_cons,
      filter_swap]
  | trans _ _ ih1 ih2 => exact (ih1 l).trans (ih2 l)

/-- The `get_transactions` filter chain is `applyConds` over its condition
list. -/
theorem applyTxFilters_eq_applyConds (f : TxFilter) (l : List Transaction) :
    applyTxFilters f l = applyConds l (txConds f) := by
  obtain ⟨ty, cid, iid, sd, ed, mn, mx⟩ := f
  cases ty <;> cases cid <;> cases iid <;> cases sd <;> cases ed <;>
    cases mn <;> cases mx <;>
    simp only [applyTxFilters, txConds, applyConds, List.foldl_append,
      List.foldl_cons, List.foldl_nil, List.append_nil, List.nil_append] <;>
    split_ifs <;> rfl

/-- The `get_companies` filter chain is `applyConds` over its condition
list. -/
theorem applyCompanyFilters_eq_applyConds (f : CompanyFilter)
    (l : List Company) :
    applyCompanyFilters f l = applyConds l (companyConds f) := by
  obtain ⟨s, e, mn, mx, ao⟩ := f
  cases s <;> cases e <;> cases mn <;> cases mx <;> cases ao <;>
    simp only [applyCompanyFilters, companyConds, applyConds,
      List.foldl_append, List.foldl_cons, List.foldl_nil, List.append_nil,
      List.nil_append] <;>
    split_ifs <;> rfl

/-- C4: each absent parameter contributes no condition, each supplied one
contributes one condition, the selected set is the conjunction (AND) of
the supplied conditions, and applying the conditions in any order yields
the same selected set (both for transaction and company listings). -/
theorem filter_composition_conjunctive_commutative
    (f : TxFilter) (g : CompanyFilter) (l : List Transaction)
    (m : List Company) :
    applyTxFilters f l = l.filter (fun t => (txConds f).all (fun p => p t))
    ∧ (∀ cs, List.Perm cs (txConds f) →
        applyConds l cs = applyTxFilters f l)
    ∧ applyCompanyFilters g m
        = m.filter (fun c => (companyConds g).all (fun p => p c))
    ∧ (∀ cs, List.Perm cs (companyConds g) →
        applyConds m cs = applyCompanyFilters g m) := by
  refine ⟨?_, ?_, ?_, ?_⟩
  · rw [applyTxFilters_eq_applyConds, applyConds_eq_filter_all]
  · intro cs hperm
    rw [applyConds_perm hperm, applyTxFilters_eq_applyConds]
  · rw [applyCompanyFilters_eq_applyConds, applyConds_eq_filter_all]
  · intro cs hperm
    rw [applyConds_perm hperm, applyCompanyFilters_eq_applyConds]

/-- C4 witness: applying the two supplied conditions of `demoTxFilter` in
reversed order selects the same transactions from the sample data. -/
theorem filter_composition_witness :
    applyConds sampleTxs (txConds demoTxFilter).reverse
      = applyTxFilters demoTxFilter sampleTxs :=
  (filter_composition_conjunctive_commutative demoTxFilter {} sampleTxs
    []).2.1 (txConds demoTxFilter).reverse (List.reverse_perm _)

/-- C5: creating a transaction whose `insider_id` resolves to no existing
insider fails with the NotFound error naming the insider entity and the
offending id, and the store (in particular the transaction collection) is
unchanged. -/
theorem create_transaction_missing_insider
    (db : DB) (tc : TransactionCreate) (nextId : Nat) (now : Int)
    (h : ∀ i ∈ db.insiders, i.id ≠ tc.insider_id) :
    create_transaction db tc nextId now
      = (db, .error (.insiderNotFound tc.insider_id)) := by
  have hfind : db.insiders.find? (fun i => i.id == tc.insider_id) = none := by
    rw [List.find?_eq_none]
    intro x hx
    simpa using h x hx
  simp [create_transaction, hfind]

/-- C5 witness: the spec scenario, inserting a transaction with
`insider_id = 999` into a store whose only insider has id 1. -/
theorem create_transaction_missing_insider_witness :
    (∀ i ∈ demoDB.insiders, i.id ≠ txCreate999.insider_id)
    ∧ create_transaction demoDB txCreate999 1 0
      = (demoDB, .error (.insiderNotFound 999)) :=
  ⟨by decide,
   create_transaction_missing_insider demoDB txCreate999 1 0 (by decide)⟩

/-- C6: creating a company whose symbol equals an existing company's symbol
fails with a duplicate-key error naming the conflicting symbol, before any
insert, leaving the collection unchanged. -/
theorem create_company_duplicate_symbol
    (companies : List Company) (cc : CompanyCreate) (nextId : Nat)
    (now : Int) (h : ∃ c ∈ companies, c.symbol = cc.symbol) :
    create_company companies cc nextId now
      = (companies, .error (.duplicateSymbol cc.symbol)) := by
  have hfind : (companies.find? (fun c => c.symbol == cc.symbol)).isSome := by
    rw [List.find?_isSome]
    obtain ⟨c, hc, hs⟩ := h
    exact ⟨c, hc, by simpa using hs⟩
  rcases hopt : companies.find? (fun c => c.symbol == cc.symbol) with _ | c
  · rw [hopt] at hfind
    simp at hfind
  · simp [create_company, hopt]

/-- C6 witness: the spec scenario — insert `SHOP` into an empty store, then
attempt to insert `SHOP` again; the second insert fails and changes
nothing. -/
theorem create_company_duplicate_symbol_witness :
    (∃ c ∈ (create_company [] shopCreate 1 0).1, c.symbol = shopCreate.symbol)
    ∧ create_company (create_company [] shopCreate 1 0).1 shopCreate 2 0
      = ((create_company [] shopCreate 1 0).1,
         .error (.duplicateSymbol "SHOP")) :=
  ⟨by decide,
   create_company_duplicate_symbol (create_company [] shopCreate 1 0).1
     shopCreate 2 0 (by decide)⟩

/-- A Python `sum(v(t) for t in l if p(t))` accumulation. -/
theorem foldl_filter_sum (p : α → Bool) (v : α → ℚ) (l : List α)
    (init : ℚ) :
    l.foldl (fun acc t => if p t then acc + v t else acc) init
      = init + ((l.filter p).map v).sum := by
  induction l generalizing init with
  | nil => simp
  | cons x xs ih =>
    by_cases hx : p x
    · simp [hx, ih, add_assoc]
    · simp [hx, ih]

/-- C7: over the (optionally date-filtered) transaction set, the stats
endpoint reports the count, the per-type sums of `total_value`, and
`net_value = total_buy_value - total_sell_value`; concretely, over three
buys of value 100 and one sell of value 50 it returns 300 / 50 / 250 / 4. -/
theorem stats_totals_correct (db : DB) (sd ed : Option Int) :
    ((get_transaction_stats db sd ed).total_transactions
        = (statsFiltered db.transactions sd ed).length
      ∧ (get_transaction_stats db sd ed).total_buy_value
        = (((statsFiltered db.transactions sd ed).filter
            (fun t => t.transaction_type == .buy)).map
            (fun t => t.total_value)).sum
      ∧ (get_transaction_stats db sd ed).total_sell_value
        = (((statsFiltered db.transactions sd ed).filter
            (fun t => t.transaction_type == .sell)).map
            (fun t => t.total_value)).sum
      ∧ (get_transaction_stats db sd ed).net_value
        = (get_transaction_stats db sd ed).total_buy_value
          - (get_transaction_stats db sd ed).total_sell_value)
    ∧ ((get_transaction_stats statsDB none none).total_buy_value = 300
      ∧ (get_transaction_stats statsDB none none).total_sell_value = 50
      ∧ (get_transaction_stats statsDB none none).net_value = 250
      ∧ (get_transaction_stats statsDB none none).total_transactions = 4) := by
  have hbb : (TransactionType.buy == TransactionType.buy) = true := rfl
  have hsb : (TransactionType.sell == TransactionType.buy) = false := rfl
  have hbs : (TransactionType.buy == TransactionType.sell) = false := rfl
  have hss : (TransactionType.sell == TransactionType.sell) = true := rfl
  refine ⟨⟨rfl, ?_, ?_, rfl⟩,
    by norm_num [get_transaction_stats, statsFiltered, statsDB, statsTxs,
      hbb, hsb, hbs, hss]⟩
  · have hb := foldl_filter_sum
      (fun t : Transaction => t.transaction_type == .buy)
      (fun t => t.total_value) (statsFiltered db.transactions sd ed) 0
    rw [zero_add] at hb
    exact hb
  · have hs := foldl_filter_sum
      (fun t : Transaction => t.transaction_type == .sell)
      (fun t => t.total_value) (statsFiltered db.transactions sd ed) 0
    rw [zero_add] at hs
    exact hs

/-- Running `find?` after `modifyFirst` returns the image of the old first match,
provided the modification does not change matching. -/
theorem find?_modifyFirst (p : α → Bool) (g : α → α)
    (hpres : ∀ x, p (g x) = p x) (l : List α) (c : α)
    (h : l.find? p = some c) :
    (modifyFirst p g l).find? p = some (g c) := by
  induction l with
  | nil => simp at h
  | cons x xs ih =>
    by_cases hx : p x = true
    · rw [List.find?_cons_of_pos _ hx] at h
      obtain rfl : x = c := Option.some.inj h
      rw [modifyFirst, if_pos hx]
      exact List.find?_cons_of_pos _ (by rw [hpres]; exact hx)
    · rw [List.find?_cons_of_neg _ hx] at h
      rw [modifyFirst, if_neg hx, List.find?_cons_of_neg _ hx]
      exact ih h

/-- Modifying the first match twice with a self-inverse modification is the
identity. -/
theorem modifyFirst_modifyFirst (p : α → Bool) (g : α → α)
    (hpres : ∀ x, p (g x) = p x) (hinv : ∀ x, p x = true → g (g x) = x)
    (l : List α) : modifyFirst p g (modifyFirst p g l) = l := by
  induction l with
  | nil => rfl
  | cons x xs ih =>
    by_cases hx : p x = true
    · rw [modifyFirst, if_pos hx, modifyFirst, if_pos (by rw [hpres]; exact hx),
        hinv x hx]
    · rw [modifyFirst, if_neg hx, modifyFirst, if_neg hx, ih]

/-- Elements that do not match `p` survive `modifyFirst` untouched. -/
theorem mem_modifyFirst_of_not_match (p : α → Bool) (g : α → α)
    (l : List α) (x : α) (hx : x ∈ l) (hnp : p x = false) :
    x ∈ modifyFirst p g l := by
  induction l with
  | nil => cases hx
  | cons y ys ih =>
    by_cases hy : p y = true
    · rw [modifyFirst, if_pos hy]
      rcases List.mem_cons.mp hx with rfl | hmem
      · rw [hnp] at hy
        cases hy
      · exact List.mem_cons_of_mem _ hmem
    · rw [modifyFirst, if_neg hy]
      rcases List.mem_cons.mp hx with rfl | hmem
      · exact List.mem_cons_self _ _
      · exact List.mem_cons_of_mem _ (ih hmem)

/-- C8: toggling a company's active status negates `is_active` and leaves
every other field and every non-matching row unchanged, and toggling twice
restores both the stored collection and the returned company. -/
theorem toggle_company_status_involution
    (companies : List Company) (cid : Nat) (c : Company)
    (h : companies.find? (fun x => x.id == cid) = some c) :
    (toggle_company_status companies cid).2
        = .ok { c with is_active := !c.is_active }
    ∧ (∀ x ∈ companies, (x.id == cid) = false →
        x ∈ (toggle_company_status companies cid).1)
    ∧ (toggle_company_status (toggle_company_status companies cid).1 cid).1
        = companies
    ∧ (toggle_company_status (toggle_company_status companies cid).1 cid).2
        = .ok c := by
  have hpres : ∀ x : Company,
      (({ x with is_active := !x.is_active } : Company).id == cid)
        = (x.id == cid) := fun _ => rfl
  have hinv : ∀ x : Company, (x.id == cid) = true →
      ({ ({ x with is_active := !x.is_active } : Company) with
          is_active := !({ x with is_active := !x.is_active } : Company).is_active } : Company) = x := by
    intro x _
    cases x
    simp
  have h1 : (toggle_company_status companies cid).1
      = modifyFirst (fun x => x.id == cid)
          (fun x => { x with is_active := !x.is_active }) companies := by
    simp [toggle_company_status, h]
  have hf2 : (modifyFirst (fun x => x.id == cid)
      (fun x => { x with is_active := !x.is_active }) companies).find?
        (fun x => x.id == cid)
      = some { c with is_active := !c.is_active } :=
    find?_modifyFirst _ _ hpres _ _ h
  refine ⟨by simp [toggle_company_status, h], ?_, ?_, ?_⟩
  · intro x hx hnp
    rw [h1]
    exact mem_modifyFirst_of_not_match _ _ _ _ hx hnp
  · rw [h1]
    simp only [toggle_company_status, hf2]
    exact modifyFirst_modifyFirst _ _ hpres hinv companies
  · rw [h1]
    simp only [toggle_company_status, hf2]
    have hc := List.find?_some h
    exact congrArg Except.ok (hinv c hc)

/-- C8 witness: toggling the demo company twice restores the collection. -/
theorem toggle_company_status_involution_witness :
    [demoCompany].find? (fun x => x.id == 1) = some demoCompany
    ∧ (toggle_company_status (toggle_company_status [demoCompany] 1).1 1).1
      = [demoCompany] :=
  ⟨rfl, (toggle_company_status_involution [demoCompany] 1 demoCompany
    rfl).2.2.1⟩

/-- The initial value is a lower bound of `foldl max`. -/
theorem init_le_foldl_max (l : List Nat) (a : Nat) : a ≤ l.foldl max a := by
  induction l generalizing a with
  | nil => exact le_refl a
  | cons x xs ih => exact le_trans (le_max_left a x) (ih (max a x))

/-- Every member is bounded by `foldl max`. -/
theorem mem_le_foldl_max (l : List Nat) : ∀ (a x : Nat), x ∈ l →
    x ≤ l.foldl max a := by
  induction l with
  | nil =>
    intro a x hx
    cases hx
  | cons y ys ih =>
    intro a x hx
    rcases List.mem_cons.mp hx with rfl | hmem
    · exact le_trans (le_max_right a x) (init_le_foldl_max ys (max a x))
    · exact ih (max a y) x hmem

/-- C9 (amended): every successful insert assigns
`id = max(existing ids) + 1` (so `1` on an empty collection), an id
strictly greater than every id present, and appends the record; hence over
two consecutive inserts with no intervening delete the assigned ids
strictly increase. -/
theorem create_user_id_assignment :
    (∀ (db : List User) (u : UserCreate) (now : Int) (db2 : List User)
        (r : User), create_user db u now = (db2, .ok r) →
        r.id = (db.map (fun x => x.id)).foldl max 0 + 1
        ∧ (db = [] → r.id = 1)
        ∧ (∀ x ∈ db, x.id < r.id)
        ∧ db2 = db ++ [r])
    ∧ (∀ (db : List User) (u1 u2 : UserCreate) (n1 n2 : Int)
        (db1 db2 : List User) (r1 r2 : User),
        create_user db u1 n1 = (db1, .ok r1) →
        create_user db1 u2 n2 = (db2, .ok r2) →
        r1.id < r2.id) := by
  have key : ∀ (db : List User) (u : UserCreate) (now : Int)
      (db2 : List User) (r : User), create_user db u now = (db2, .ok r) →
      r.id = (db.map (fun x => x.id)).foldl max 0 + 1
      ∧ (db = [] → r.id = 1)
      ∧ (∀ x ∈ db, x.id < r.id)
      ∧ db2 = db ++ [r] := by
    intro db u now db2 r h
    rcases hf : db.find? (fun x => x.email == u.email) with _ | w
    · simp only [create_user, hf] at h
      obtain ⟨hdb, hr⟩ := Prod.mk.inj h
      obtain rfl := Except.ok.inj hr
      refine ⟨rfl, ?_, ?_, hdb.symm⟩
      · intro hnil
        subst hnil
        rfl
      · intro x hx
        have hle : x.id ≤ (db.map (fun y => y.id)).foldl max 0 :=
          mem_le_foldl_max _ 0 x.id (List.mem_map_of_mem _ hx)
        show x.id < (db.map (fun y => y.id)).foldl max 0 + 1
        omega
    · simp only [create_user, hf] at h
      obtain ⟨_, hr⟩ := Prod.mk.inj h
      cases hr
  refine ⟨key, ?_⟩
  intro db u1 u2 n1 n2 db1 db2 r1 r2 h1 h2
  obtain ⟨-, -, -, hdb1⟩ := key db u1 n1 db1 r1 h1
  obtain ⟨-, -, hlt, -⟩ := key db1 u2 n2 db2 r2 h2
  exact hlt r1 (by rw [hdb1]; exact List.mem_append_right _ (List.mem_singleton_self _))

/-- C9 counterexample: over the insert/delete sequence
`insert a, insert b, insert c, delete 3, delete 2, insert d` the assigned
ids are `1, 2, 3, 2` — the last insert reuses a smaller id than an earlier
one, so ids are not monotonically increasing over sequences that contain
deletes. -/
theorem create_user_ids_not_monotone :
    assignedId (create_user [] userA 0) = some 1
    ∧ assignedId (create_user c9db1 userB 0) = some 2
    ∧ assignedId (create_user c9db2 userC 0) = some 3
    ∧ assignedId (create_user c9db5 userD 0) = some 2
    ∧ ¬ 3 ≤ 2 := by decide

/-- C9 witness: inserting into the seed users assigns id `4 = max + 1`. -/
theorem create_user_id_assignment_witness :
    create_user seedUsers userA 0 = (seedUsers ++ [annUser], .ok annUser)
    ∧ annUser.id = (seedUsers.map (fun x => x.id)).foldl max 0 + 1 :=
  ⟨rfl, (create_user_id_assignment.1 seedUsers userA 0 _ _ rfl).1⟩

/-- C10: a partial update changes only the fields supplied with a non-null
value; fields that are absent from the payload, or supplied as an explicit
`null`, keep their previous value (so nullable fields such as `sector` or
`notes` cannot be reset to null), and fields outside the update schema
(`id`, `created_at`, `is_active`) are never changed. Stated for
`update_company` and `update_transaction`. -/
theorem update_changes_only_supplied_fields
    (companies : List Company) (cid : Nat) (u : CompanyUpdate)
    (c c2 : Company) (cs2 : List Company)
    (hfind : companies.find? (fun x => x.id == cid) = some c)
    (hok : update_company companies cid u = (cs2, .ok c2))
    (transactions : List Transaction) (tid : Nat) (v : TransactionUpdate)
    (t t2 : Transaction) (ts2 : List Transaction)
    (htfind : transactions.find? (fun x => x.id == tid) = some t)
    (htok : update_transaction transactions tid v = (ts2, .ok t2)) :
    ((u.name = none ∨ u.name = some none → c2.name = c.name)
      ∧ (u.symbol = none ∨ u.symbol = some none → c2.symbol = c.symbol)
      ∧ (u.sector = none ∨ u.sector = some none → c2.sector = c.sector)
      ∧ (u.market_cap = none ∨ u.market_cap = some none →
          c2.market_cap = c.market_cap)
      ∧ (u.exchange = none ∨ u.exchange = some none →
          c2.exchange = c.exchange)
      ∧ c2.id = c.id ∧ c2.created_at = c.created_at
      ∧ c2.is_active = c.is_active)
    ∧ ((v.transaction_date = none ∨ v.transaction_date = some none →
          t2.transaction_date = t.transaction_date)
      ∧ (v.transaction_type = none ∨ v.transaction_type = some none →
          t2.transaction_type = t.transaction_type)
      ∧ (v.shares = none ∨ v.shares = some none → t2.shares = t.shares)
      ∧ (v.price_per_share = none ∨ v.price_per_share = some none →
          t2.price_per_share = t.price_per_share)
      ∧ (v.total_value = none ∨ v.total_value = some none →
          t2.total_value = t.total_value)
      ∧ (v.filing_date = none ∨ v.filing_date = some none →
          t2.filing_date = t.filing_date)
      ∧ (v.notes = none ∨ v.notes = some none → t2.notes = t.notes)
      ∧ t2.id = t.id ∧ t2.insider_id = t.insider_id
      ∧ t2.company_id = t.company_id ∧ t2.created_at = t.created_at) := by
  have hc2 : c2 = applyCompanyUpdate u c := by
    rcases hattr : u.symbol.attr with _ | s <;>
      simp only [update_company, hfind, hattr] at hok
    · obtain ⟨-, hr⟩ := Prod.mk.inj hok
      exact (Except.ok.inj hr).symm
    · split_ifs at hok
      · split at hok
        · obtain ⟨-, hr⟩ := Prod.mk.inj hok
          cases hr
        · obtain ⟨-, hr⟩ := Prod.mk.inj hok
          exact (Except.ok.inj hr).symm
      · obtain ⟨-, hr⟩ := Prod.mk.inj hok
        exact (Except.ok.inj hr).symm
  have ht2 : t2 = applyTransactionUpdate v t := by
    simp only [update_transaction, htfind] at htok
    obtain ⟨-, hr⟩ := Prod.mk.inj htok
    exact (Except.ok.inj hr).symm
  subst hc2 ht2
  refine ⟨⟨?_, ?_, ?_, ?_, ?_, rfl, rfl, rfl⟩,
    ⟨?_, ?_, ?_, ?_, ?_, ?_, ?_, rfl, rfl, rfl, rfl⟩⟩ <;>
    rintro (h | h) <;>
    simp [applyCompanyUpdate, applyTransactionUpdate, Patch.apply,
      Patch.applyOpt, h]

/-- C10 witness: updating the demo company with a supplied `name` and an
explicit-null `sector`, and the sample transaction with a supplied
`shares` and an explicit-null `notes`, leaves `sector` and `notes`
unchanged. -/
theorem update_changes_only_supplied_fields_witness :
    [demoCompany].find? (fun x => x.id == 1) = some demoCompany
    ∧ update_company [demoCompany] 1 demoCompanyUpdate
      = ([applyCompanyUpdate demoCompanyUpdate demoCompany],
         .ok (applyCompanyUpdate demoCompanyUpdate demoCompany))
    ∧ [sellTx].find? (fun x => x.id == 4) = some sellTx
    ∧ update_transaction [sellTx] 4 demoTransactionUpdate
      = ([applyTransactionUpdate demoTransactionUpdate sellTx],
         .ok (applyTransactionUpdate demoTransactionUpdate sellTx))
    ∧ (applyCompanyUpdate demoCompanyUpdate demoCompany).sector
      = demoCompany.sector
    ∧ (applyTransactionUpdate demoTransactionUpdate sellTx).notes
      = sellTx.notes := by
  refine ⟨rfl, rfl, rfl, rfl, ?_, ?_⟩
  · exact (update_changes_only_supplied_fields [demoCompany] 1
      demoCompanyUpdate demoCompany _ _ rfl rfl [sellTx] 4
      demoTransactionUpdate sellTx _ _ rfl rfl).1.2.2.1 (Or.inr rfl)
  · exact (update_changes_only_supplied_fields [demoCompany] 1
      demoCompanyUpdate demoCompany _ _ rfl rfl [sellTx] 4
      demoTransactionUpdate sellTx _ _ rfl rfl).2.2.2.2.2.2.2.1 (Or.inr rfl)

end SimpleApi
